/-
Verification of the uber-rides-dashboard repository against its specification.

Shallow embedding of:
  * src/Spain_posts.py         (record normalizer: clean_phone, dominant_status,
                                sentiment lookup, build_payload)
  * src/load_spain_combined.py (per-call normalizer: build_payload)
  * src/schemas.py             (CallRecordCreate boundary schema)
  * src/models.py              (CallRecord storage model)
  * src/main.py                (receive_call ingestion handler, get_analytics aggregator)

Python dicts from JSON are modelled as insertion-ordered association lists,
machine integers as Int (no overflow semantics are relevant here), SQL numerics
and Python floats as ℚ, and timestamps as seconds-since-epoch integers.
-/
import Mathlib

set_option autoImplicit false

namespace UberDash

namespace SpainPosts

/-- Outcome tally of one analysis.json entry: an insertion-ordered mapping from
outcome label to occurrence count (a JSON object in the source). -/
abbrev Breakdown := List (String × Int)

/-- Priority order for determining the dominant status of an entry
(src/Spain_posts.py lines 33-42). -/
def STATUS_PRIORITY : List String :=
  ["success",
   "callback requested",
   "not interested",
   "avoid callback",
   "not the right person",
   "wrong flow",
   "hang up",
   "voicemail"]

/-- Sentiment derived from the dominant outcome (src/Spain_posts.py lines 45-54;
the identical table appears in src/load_spain_combined.py lines 198-207). -/
def SENTIMENT_MAP : List (String × String) :=
  [("success", "satisfied"),
   ("callback requested", "neutral"),
   ("not interested", "upset"),
   ("avoid callback", "upset"),
   ("not the right person", "neutral"),
   ("wrong flow", "neutral"),
   ("hang up", "neutral"),
   ("voicemail", "neutral")]

/-- Python result_breakdown.get(status, 0): value of the first matching key, 0 if absent. -/
def bdGet (rb : Breakdown) (k : String) : Int :=
  match rb with
  | [] => 0
  | (k', v) :: rest => if k' = k then v else bdGet rest k

/-- Python raw.replace(" ", ""): remove every space character. -/
def removeSpaces (l : List Char) : List Char :=
  l.filter (fun c => c ≠ ' ')

/-- The while loop of clean_phone: while the string starts with "++",
drop one leading '+' (src/Spain_posts.py lines 60-61). -/
def collapsePlus : List Char → List Char
  | '+' :: '+' :: rest => collapsePlus ('+' :: rest)
  | l => l
termination_by l => l.length

/-- clean_phone (src/Spain_posts.py lines 57-62, identical in
src/load_spain_combined.py lines 210-214). -/
def clean_phone (raw : String) : String :=
  ⟨collapsePlus (removeSpaces raw.data)⟩

/-- get_country (src/Spain_posts.py lines 65-68). -/
def get_country (phone : String) : String :=
  if phone.startsWith "+351" then "PT" else "ES"

/-- The for loop of dominant_status over the priority list: return the first
listed status with a positive count, if any. -/
def dominantLoop (prio : List String) (rb : Breakdown) : Option String :=
  match prio with
  | [] => none
  | st :: rest => if 0 < bdGet rb st then some st else dominantLoop rest rb

/-- dominant_status (src/Spain_posts.py lines 71-77): the highest-priority outcome
present in the breakdown; fallback next(iter(rb), "unknown") is the first key in
insertion order, or "unknown" for the empty breakdown. -/
def dominant_status (rb : Breakdown) : String :=
  match dominantLoop STATUS_PRIORITY rb with
  | some st => st
  | none =>
    match rb with
    | [] => "unknown"
    | (k, _) :: _ => k

/-- build_summary (src/Spain_posts.py lines 80-82). -/
def build_summary (rb : Breakdown) : String :=
  let parts := (rb.filter (fun p => 0 < p.2)).map (fun p => toString p.2 ++ " " ++ p.1)
  if parts = [] then "no calls recorded" else String.intercalate ", " parts

/-- SENTIMENT_MAP.get(dom, "neutral") as used in build_payload
(src/Spain_posts.py line 94, src/load_spain_combined.py line 255). -/
def sentimentFor (st : String) : String :=
  match SENTIMENT_MAP.lookup st with
  | some s => s
  | none => "neutral"

/-- One analysis.json entry as consumed by build_payload: entry["phone"] is
required, the other two are read with .get defaults. -/
structure Entry where
  phone : String
  result_breakdown : Option Breakdown
  minutes_excluding_voicemail : Option ℚ

/-- The JSON payload dict produced by build_payload (all values as the source
builds them: call_human, attempt and duration are strings). -/
structure Payload where
  phone : String
  status : String
  sentiment : String
  call_human : String
  summary : String
  attempt : String
  duration : String
  country : String

/-- build_payload (src/Spain_posts.py lines 85-100). -/
def build_payload (entry : Entry) : Payload :=
  let phone := clean_phone entry.phone
  let rb := entry.result_breakdown.getD []
  let dom := dominant_status rb
  let duration : Int := round ((entry.minutes_excluding_voicemail.getD 0) * 60)
  { phone := phone
    status := dom
    sentiment := sentimentFor dom
    call_human := if dom = "callback requested" then "TRUE" else "FALSE"
    summary := build_summary rb
    attempt := toString ((rb.map Prod.snd).sum)
    duration := toString duration
    country := get_country phone }

end SpainPosts

namespace LoadCombined

/-- One parsed call from results.json after parse_results and assign_attempts
(src/load_spain_combined.py lines 217-250). -/
structure Call where
  phone : String
  partner : String
  duration : Int
  status : String
  attempt : Int
  timestamp : String

/-- The JSON payload dict of the per-call loader; created_at is present only
when the call has a non-empty timestamp. -/
structure Payload where
  phone : String
  status : String
  sentiment : String
  call_human : String
  summary : String
  attempt : String
  duration : String
  country : String
  created_at : Option String

/-- build_payload (src/load_spain_combined.py lines 253-268). -/
def build_payload (call : Call) : Payload :=
  let status := call.status
  { phone := call.phone
    status := status
    sentiment := SpainPosts.sentimentFor status
    call_human := if status = "callback requested" then "TRUE" else "FALSE"
    summary := call.partner ++ " — " ++ status
    attempt := toString call.attempt
    duration := toString call.duration
    country := "ES"
    created_at := if call.timestamp ≠ "" then some call.timestamp else none }

end LoadCombined

namespace SpainPosts

/-- Characterization of the plus-collapsing step: a leading run of two or more
'+' characters is replaced by exactly one '+', anything else is left unchanged. -/
def collapseLeadingRun (l : List Char) : List Char :=
  if 2 ≤ (l.takeWhile (fun c => c = '+')).length then
    '+' :: l.dropWhile (fun c => c = '+')
  else l

theorem collapsePlus_eq_collapseLeadingRun (l : List Char) :
    collapsePlus l = collapseLeadingRun l := by
  induction l using collapsePlus.induct with
  | case1 rest ih =>
    rw [collapsePlus]
    rw [ih]
    unfold collapseLeadingRun
    cases rest with
    | nil => simp [List.takeWhile, List.dropWhile]
    | cons c t =>
      by_cases hc : c = '+'
      · subst hc
        simp [List.takeWhile, List.dropWhile]
      · simp [List.takeWhile, List.dropWhile, hc]
  | case2 l h =>
    rw [collapsePlus]
    · unfold collapseLeadingRun
      match l, h with
      | [], _ => simp [List.takeWhile]
      | [c], _ =>
        by_cases hc : c = '+'
        · subst hc; simp [List.takeWhile]
        · simp [List.takeWhile, hc]
      | c1 :: c2 :: t, h =>
        by_cases h1 : c1 = '+'
        · by_cases h2 : c2 = '+'
          · subst h1; subst h2; exact absurd rfl (h t)
          · subst h1; simp [List.takeWhile, h2]
        · simp [List.takeWhile, h1]
    · exact h

/-- C10: clean_phone removes every space character and collapses any leading run
of two or more '+' characters down to exactly one, changing nothing else; it is a
total function, and on "++351 911 222333" it yields "+351911222333". -/
theorem c10_clean_phone (s : String) :
    clean_phone s = ⟨collapseLeadingRun ((s.data).filter (fun c => c ≠ ' '))⟩
    ∧ clean_phone "++351 911 222333" = "+351911222333" := by
  have hchar : ∀ t : String,
      clean_phone t = ⟨collapseLeadingRun ((t.data).filter (fun c => c ≠ ' '))⟩ := by
    intro t
    show (⟨collapsePlus (removeSpaces t.data)⟩ : String) = _
    rw [removeSpaces, collapsePlus_eq_collapseLeadingRun]
  refine ⟨hchar s, ?_⟩
  rw [hchar]
  decide

theorem dominantLoop_append (rb : Breakdown) (l₁ : List String) (st : String)
    (l₂ : List String) (hpos : 0 < bdGet rb st) (hneg : ∀ s ∈ l₁, bdGet rb s ≤ 0) :
    dominantLoop (l₁ ++ st :: l₂) rb = some st := by
  induction l₁ with
  | nil => simp [dominantLoop, hpos]
  | cons a t ih =>
    have ha : ¬ 0 < bdGet rb a := not_lt.mpr (hneg a (List.mem_cons_self a t))
    simp only [List.cons_append, dominantLoop, if_neg ha]
    exact ih (fun s hs => hneg s (List.mem_cons_of_mem a hs))

theorem dominantLoop_none (rb : Breakdown) (l : List String)
    (h : ∀ s ∈ l, bdGet rb s ≤ 0) : dominantLoop l rb = none := by
  induction l with
  | nil => rfl
  | cons a t ih =>
    have ha : ¬ 0 < bdGet rb a := not_lt.mpr (h a (List.mem_cons_self a t))
    simp only [dominantLoop, if_neg ha]
    exact ih (fun s hs => h s (List.mem_cons_of_mem a hs))

/-- C3: dominant_status returns the first status of the fixed priority list that
has a positive count (so any positive "success" count yields "success"); if no
listed status has a positive count it returns the breakdown's first key in
insertion order, and "unknown" for the empty breakdown. -/
theorem c3_dominant_status_priority (rb : Breakdown) :
    (∀ l₁ st l₂, STATUS_PRIORITY = l₁ ++ st :: l₂ → 0 < bdGet rb st →
        (∀ s ∈ l₁, bdGet rb s ≤ 0) → dominant_status rb = st)
    ∧ (0 < bdGet rb "success" → dominant_status rb = "success")
    ∧ ((∀ st ∈ STATUS_PRIORITY, bdGet rb st ≤ 0) →
        dominant_status rb = ((rb.head?.map Prod.fst).getD "unknown")) := by
  have hfirst : ∀ l₁ st l₂, STATUS_PRIORITY = l₁ ++ st :: l₂ → 0 < bdGet rb st →
      (∀ s ∈ l₁, bdGet rb s ≤ 0) → dominant_status rb = st := by
    intro l₁ st l₂ heq hpos hneg
    unfold dominant_status
    rw [heq, dominantLoop_append rb l₁ st l₂ hpos hneg]
  refine ⟨hfirst, ?_, ?_⟩
  · intro hpos
    exact hfirst [] "success"
      ["callback requested", "not interested", "avoid callback",
       "not the right person", "wrong flow", "hang up", "voicemail"]
      rfl hpos (by simp)
  · intro h
    unfold dominant_status
    rw [dominantLoop_none rb STATUS_PRIORITY h]
    match rb with
    | [] => rfl
    | (k, v) :: t => rfl

theorem c3_dominant_status_priority_witness :
    dominant_status [("voicemail", 3), ("hang up", 2)] = "hang up" :=
  (c3_dominant_status_priority _).1
    ["success", "callback requested", "not interested", "avoid callback",
     "not the right person", "wrong flow"]
    "hang up" ["voicemail"] rfl (by decide) (by decide)

/-- C9: the sentiment lookup is the fixed table success → satisfied;
not interested, avoid callback → upset; the five remaining known statuses →
neutral; and any status outside the table's vocabulary → neutral. -/
theorem c9_sentiment_lookup :
    sentimentFor "success" = "satisfied"
    ∧ sentimentFor "not interested" = "upset"
    ∧ sentimentFor "avoid callback" = "upset"
    ∧ sentimentFor "callback requested" = "neutral"
    ∧ sentimentFor "not the right person" = "neutral"
    ∧ sentimentFor "wrong flow" = "neutral"
    ∧ sentimentFor "hang up" = "neutral"
    ∧ sentimentFor "voicemail" = "neutral"
    ∧ (∀ st, st ∉ SENTIMENT_MAP.map Prod.fst → sentimentFor st = "neutral") := by
  refine ⟨rfl, rfl, rfl, rfl, rfl, rfl, rfl, rfl, ?_⟩
  intro st h
  have hnone : SENTIMENT_MAP.lookup st = none := by
    rw [List.lookup_eq_none_iff]
    intro p hp
    simp only [bne_iff_ne, ne_eq]
    intro heq
    exact h (heq ▸ List.mem_map_of_mem Prod.fst hp)
  unfold sentimentFor
  rw [hnone]

theorem c9_sentiment_lookup_witness :
    "greeting" ∉ SENTIMENT_MAP.map Prod.fst ∧ sentimentFor "greeting" = "neutral" :=
  ⟨by decide, c9_sentiment_lookup.2.2.2.2.2.2.2.2 "greeting" (by decide)⟩

/-- C5: the normalized record's call_human flag is "TRUE" exactly when the
dominant status is "callback requested" (per-call loader: exactly when the
call's own status is "callback requested"); the breakdown with success 1 and
hang up 9 yields call_human = "FALSE". -/
theorem c5_call_human_iff_callback :
    (∀ e : Entry, (build_payload e).call_human = "TRUE" ↔
        dominant_status (e.result_breakdown.getD []) = "callback requested")
    ∧ (build_payload
        ⟨"+34618953592", some [("success", 1), ("hang up", 9)], none⟩).call_human = "FALSE"
    ∧ (∀ c : LoadCombined.Call, (LoadCombined.build_payload c).call_human = "TRUE" ↔
        c.status = "callback requested") := by
  refine ⟨?_, ?_, ?_⟩
  · intro e
    show (if dominant_status (e.result_breakdown.getD []) = "callback requested"
          then "TRUE" else "FALSE") = "TRUE" ↔ _
    split
    · next hd => simp [hd]
    · next hd => simp [hd]
  · rfl
  · intro c
    show (if c.status = "callback requested" then "TRUE" else "FALSE") = "TRUE" ↔ _
    split
    · next hd => simp [hd]
    · next hd => simp [hd]

end SpainPosts

/-- The call_records row (src/models.py lines 6-23). Timestamps are modelled as
seconds since the epoch; summary is a nullable text column. -/
structure CallRecord where
  id : Int
  phone : String
  status : String
  sentiment : String
  call_human : Bool
  summary : Option String
  attempt : Int
  duration : Int
  country : String
  created_at : Int
deriving DecidableEq, Repr

/-- The validated POST body (src/schemas.py lines 6-31). These are exactly the
fields declared on the pydantic model; the class declares neither a country nor
a created_at field. -/
structure CallRecordCreate where
  phone : String
  status : String := "neutral"
  sentiment : String := "neutral"
  call_human : Bool := false
  summary : Option String := none
  attempt : Int := 1
  duration : Int := 0
deriving DecidableEq, Repr

/-- A Python runtime value, as far as the handler needs one. -/
inductive PyVal where
  | vStr : String → PyVal
  | vInt : Int → PyVal
  | vBool : Bool → PyVal
  | vNone : PyVal
deriving DecidableEq, Repr

/-- Python truthiness of a value. -/
def PyVal.truthy : PyVal → Bool
  | .vStr s => s ≠ ""
  | .vInt n => n ≠ 0
  | .vBool b => b
  | .vNone => false

def PyVal.asStr : PyVal → String
  | .vStr s => s
  | _ => ""

def PyVal.asInt : PyVal → Int
  | .vInt n => n
  | _ => 0

/-- Attribute access on the validated payload object: a pydantic model resolves
exactly the fields declared on the class (src/schemas.py lines 6-31) and raises
AttributeError for every other name. -/
def CallRecordCreate.getAttr (p : CallRecordCreate) : String → Except String PyVal
  | "phone" => .ok (.vStr p.phone)
  | "status" => .ok (.vStr p.status)
  | "sentiment" => .ok (.vStr p.sentiment)
  | "call_human" => .ok (.vBool p.call_human)
  | "summary" =>
    .ok (match p.summary with
         | some s => .vStr s
         | none => .vNone)
  | "attempt" => .ok (.vInt p.attempt)
  | "duration" => .ok (.vInt p.duration)
  | a => .error ("AttributeError: " ++ a)

/-- The POST /api/calls handler receive_call (src/main.py lines 86-107).
The CallRecord constructor call evaluates one attribute access per keyword
argument, in source order, ending with payload.country; then the handler reads
payload.created_at, keeps it if truthy, and appends the record to storage.
serverNow is the database's now() default, nextId the autoincrement id. -/
def receive_call (payload : CallRecordCreate) (db : List CallRecord)
    (serverNow : Int) (nextId : Int) : Except String (List CallRecord × CallRecord) := do
  let phoneV ← payload.getAttr "phone"
  let statusV ← payload.getAttr "status"
  let sentimentV ← payload.getAttr "sentiment"
  let humanV ← payload.getAttr "call_human"
  let summaryV ← payload.getAttr "summary"
  let attemptV ← payload.getAttr "attempt"
  let durationV ← payload.getAttr "duration"
  let countryV ← payload.getAttr "country"
  let record0 : CallRecord :=
    { id := nextId
      phone := phoneV.asStr
      status := statusV.asStr
      sentiment := sentimentV.asStr
      call_human := humanV.truthy
      summary := match summaryV with
                 | .vStr s => some s
                 | _ => none
      attempt := attemptV.asInt
      duration := durationV.asInt
      country := countryV.asStr
      created_at := serverNow }
  let createdV ← payload.getAttr "created_at"
  let record := if createdV.truthy then { record0 with created_at := createdV.asInt } else record0
  .ok (db ++ [record], record)

/-- Rounding at the output boundary: Python round(x, 1) and round(x, 2),
modelled over ℚ with Mathlib's round; it agrees with the source away from
exact representation ties, and no claim depends on a tie. -/
def round1 (q : ℚ) : ℚ := ((round (q * 10) : ℤ) : ℚ) / 10

def round2 (q : ℚ) : ℚ := ((round (q * 100) : ℤ) : ℚ) / 100

/-- The cf helper of get_analytics (src/main.py lines 115-119): the country
filter applies only to the two recognized codes. -/
def cfilter (country : String) (db : List CallRecord) : List CallRecord :=
  if country = "PT" ∨ country = "ES" then db.filter (fun r => r.country = country) else db

/-- date_trunc "day" on an epoch-seconds timestamp. -/
def dayOf (t : Int) : Int := t / 86400

/-- extract "hour" on an epoch-seconds timestamp. -/
def hourOf (t : Int) : Int := t / 3600 % 24

/-- extract "dow" on an epoch-seconds timestamp (day 0 of the epoch was a Thursday). -/
def dowOf (t : Int) : Int := (t / 86400 + 4) % 7

/-- The summary block of get_analytics (src/main.py lines 122-148), computed
from the rows selected by the country filter. SQL aggregates return NULL on an
empty row set; the handler replaces falsy aggregates by 0 defaults. -/
structure Summary where
  total_calls : Nat
  human_needed : Nat
  avg_attempts : ℚ
  avg_duration : ℚ
  handoff_rate : ℚ
  total_hours_saved : ℚ
  total_attempts : Int
  partners_contacted : Nat
  connected_calls : Nat
deriving DecidableEq, Repr

def summaryOf (rows : List CallRecord) : Summary :=
  let total_calls := rows.length
  let human_needed := (rows.filter (fun r => r.call_human)).length
  let sumAttempt : Int := (rows.map (fun r => r.attempt)).sum
  let sumDuration : Int := (rows.map (fun r => r.duration)).sum
  let totalSecondsSaved : Int := (rows.map (fun r => r.duration + 120)).sum
  let avgAttempts : Option ℚ :=
    if total_calls = 0 then none else some ((sumAttempt : ℚ) / total_calls)
  let avgDuration : Option ℚ :=
    if total_calls = 0 then none else some ((sumDuration : ℚ) / total_calls)
  { total_calls := total_calls
    human_needed := human_needed
    avg_attempts := match avgAttempts with
                    | none => 0
                    | some q => if q = 0 then 0 else round2 q
    avg_duration := match avgDuration with
                    | none => 0
                    | some q => if q = 0 then 0 else round1 q
    handoff_rate := round1 (if 0 < total_calls then (human_needed : ℚ) / total_calls * 100 else 0)
    total_hours_saved := round1 ((totalSecondsSaved : ℚ) / 3600)
    total_attempts := sumAttempt
    partners_contacted := ((rows.map (fun r => r.phone)).dedup).length
    connected_calls := (rows.filter (fun r => r.status ≠ "voicemail")).length }

/-- GROUP BY status with counts (src/main.py lines 157-164): one bucket per
distinct status value present in the rows. -/
def statusDist (rows : List CallRecord) : List (String × Nat) :=
  ((rows.map (fun r => r.status)).dedup).map
    (fun st => (st, (rows.filter (fun r => r.status = st)).length))

/-- GROUP BY sentiment with counts (src/main.py lines 167-174). -/
def sentimentDist (rows : List CallRecord) : List (String × Nat) :=
  ((rows.map (fun r => r.sentiment)).dedup).map
    (fun st => (st, (rows.filter (fun r => r.sentiment = st)).length))

/-- GROUP BY attempt with counts, ordered by attempt, keys stringified
(src/main.py lines 189-193). -/
def attemptsDist (rows : List CallRecord) : List (String × Nat) :=
  (((rows.map (fun r => r.attempt)).dedup).mergeSort (fun a b => decide (a ≤ b))).map
    (fun a => (toString a, (rows.filter (fun r => r.attempt = a)).length))

/-- Rows of the trailing 30-day window (src/main.py lines 176-181). -/
def windowRows (rows : List CallRecord) (now : Int) : List CallRecord :=
  rows.filter (fun r => now - 30 * 86400 ≤ r.created_at)

/-- The distinct day buckets of the window, ordered by day. -/
def windowDays (rows : List CallRecord) (now : Int) : List Int :=
  (((windowRows rows now).map (fun r => dayOf r.created_at)).dedup).mergeSort
    (fun a b => decide (a ≤ b))

/-- Per-day record counts over the trailing window (src/main.py lines 183-186). -/
def callsOverTime (rows : List CallRecord) (now : Int) : List (Int × Nat) :=
  (windowDays rows now).map
    (fun d => (d, ((windowRows rows now).filter (fun r => dayOf r.created_at = d)).length))

/-- Per-day mean duration over the trailing window, rounded to 1 decimal
(src/main.py lines 187-190). -/
def durationOverTime (rows : List CallRecord) (now : Int) : List (Int × ℚ) :=
  (windowDays rows now).map
    (fun d =>
      let grp := (windowRows rows now).filter (fun r => dayOf r.created_at = d)
      (d, round1 (((grp.map (fun r => r.duration)).sum : ℚ) / grp.length)))

/-- One entry of the recent_calls list: exactly the keys of the dict built in
src/main.py lines 197-209 (created_at.isoformat() kept as the raw timestamp). -/
structure RecentEntry where
  id : Int
  phone : String
  status : String
  sentiment : String
  call_human : Bool
  summary : String
  attempt : Int
  duration : Int
  created_at : Int
deriving DecidableEq, Repr

/-- The projection applied to each recent record (src/main.py lines 197-209);
a null summary becomes the empty string. -/
def projectRecent (r : CallRecord) : RecentEntry :=
  { id := r.id
    phone := r.phone
    status := r.status
    sentiment := r.sentiment
    call_human := r.call_human
    summary := r.summary.getD ""
    attempt := r.attempt
    duration := r.duration
    created_at := r.created_at }

/-- The keys of the recent_calls projection dict (src/main.py lines 197-209). -/
def recentCallFields : List String :=
  ["id", "phone", "status", "sentiment", "call_human", "summary", "attempt",
   "duration", "created_at"]

/-- The public columns of the CallRecord model (src/models.py lines 6-23). -/
def callRecordFields : List String :=
  ["id", "phone", "status", "sentiment", "call_human", "summary", "attempt",
   "duration", "country", "created_at"]

/-- ORDER BY created_at DESC LIMIT 20 (src/main.py lines 194-196). -/
def recentRecords (rows : List CallRecord) : List CallRecord :=
  (rows.mergeSort (fun a b => decide (b.created_at ≤ a.created_at))).take 20

/-- Rows of the connected-call temporal views: status not in failed/voicemail
(src/main.py lines 213-216 and 222-225). -/
def connRows (rows : List CallRecord) : List CallRecord :=
  rows.filter (fun r => r.status ≠ "failed" ∧ r.status ≠ "voicemail")

/-- Connected calls grouped by hour of day (src/main.py lines 212-218). -/
def callsByHour (rows : List CallRecord) : List (Int × Nat) :=
  ((((connRows rows).map (fun r => hourOf r.created_at)).dedup).mergeSort
      (fun a b => decide (a ≤ b))).map
    (fun h => (h, ((connRows rows).filter (fun r => hourOf r.created_at = h)).length))

/-- Connected calls grouped by day of week (src/main.py lines 221-227). -/
def callsByDow (rows : List CallRecord) : List (Int × Nat) :=
  ((((connRows rows).map (fun r => dowOf r.created_at)).dedup).mergeSort
      (fun a b => decide (a ≤ b))).map
    (fun d => (d, ((connRows rows).filter (fun r => dowOf r.created_at = d)).length))

/-- The full JSON response of GET /api/analytics (src/main.py lines 229-249). -/
structure Analytics where
  summary : Summary
  status_distribution : List (String × Nat)
  sentiment_distribution : List (String × Nat)
  calls_over_time : List (Int × Nat)
  duration_over_time : List (Int × ℚ)
  attempts_distribution : List (String × Nat)
  recent_calls : List RecentEntry
  calls_by_hour : List (Int × Nat)
  calls_by_dow : List (Int × Nat)
deriving DecidableEq, Repr

/-- All analytics views over one filtered row set. Every query of the handler
is wrapped in the same cf country filter (src/main.py lines 116-119), so the
whole response is a function of the filtered rows and the query time. -/
def analyticsOf (rows : List CallRecord) (now : Int) : Analytics :=
  { summary := summaryOf rows
    status_distribution := statusDist rows
    sentiment_distribution := sentimentDist rows
    calls_over_time := callsOverTime rows now
    duration_over_time := durationOverTime rows now
    attempts_distribution := attemptsDist rows
    recent_calls := (recentRecords rows).map projectRecent
    calls_by_hour := callsByHour rows
    calls_by_dow := callsByDow rows }

/-- The GET /api/analytics handler get_analytics (src/main.py lines 110-249). -/
def get_analytics (db : List CallRecord) (country : String) (now : Int) : Analytics :=
  analyticsOf (cfilter country db) now

/-- The fields declared on the CallRecordCreate schema (src/schemas.py lines 6-31). -/
def callRecordCreateFields : List String :=
  ["phone", "status", "sentiment", "call_human", "summary", "attempt", "duration"]

/-- A §6-conformant ingestion payload after validation: the JSON body also
carried country "PT" and a created_at timestamp, which pydantic validation
silently drops because CallRecordCreate declares neither field. -/
def payloadC1 : CallRecordCreate :=
  { phone := "+351911222333", status := "success", sentiment := "satisfied",
    call_human := false, summary := some "driver confirmed availability",
    attempt := 1, duration := 30 }

/-- C1: ingestion does not persist any record — receive_call fails with an
AttributeError at payload.country, because the validated schema declares
neither a country nor a created_at field. -/
theorem c1_ingest_raises_attribute_error :
    receive_call payloadC1 [] 1700000000 1 = Except.error "AttributeError: country"
    ∧ "country" ∉ callRecordCreateFields
    ∧ "created_at" ∉ callRecordCreateFields :=
  ⟨rfl, by decide, by decide⟩

def payloadC2 : CallRecordCreate := { phone := "+34618953592" }

def dbC2 : List CallRecord :=
  [{ id := 1, phone := "+34600111222", status := "success", sentiment := "satisfied",
     call_human := false, summary := none, attempt := 1, duration := 60,
     country := "ES", created_at := 1700000000 }]

/-- C2: the ingest-then-analyze round trip cannot raise total_calls by one,
because receive_call fails before reaching storage: there is no post-ingestion
state at all. -/
theorem c2_round_trip_broken :
    ¬ ∃ db2 r2, receive_call payloadC2 dbC2 1700000100 2 = Except.ok (db2, r2)
      ∧ (get_analytics db2 "ALL" 1700000200).summary.total_calls
          = (get_analytics dbC2 "ALL" 1700000200).summary.total_calls + 1 := by
  rintro ⟨db2, r2, h, -⟩
  have herr : receive_call payloadC2 dbC2 1700000100 2
      = Except.error "AttributeError: country" := rfl
  rw [herr] at h
  cases h

/-- C4 counterexample: the model's public column set includes country, but the
recent-calls projection does not. -/
theorem c4_recent_projection_lacks_country :
    "country" ∈ callRecordFields ∧ "country" ∉ recentCallFields := by
  decide

theorem sum_map_duration_add (db : List CallRecord) :
    (db.map (fun r => r.duration + 120)).sum
      = (db.map (fun r => r.duration)).sum + 120 * db.length := by
  induction db with
  | nil => simp
  | cons r t ih =>
    simp only [List.map_cons, List.sum_cons, ih, List.length_cons]
    push_cast
    ring

theorem recentLe_trans (a b c : CallRecord) :
    (decide (b.created_at ≤ a.created_at)) = true →
    (decide (c.created_at ≤ b.created_at)) = true →
    (decide (c.created_at ≤ a.created_at)) = true := by
  simp only [decide_eq_true_eq]
  omega

theorem recentLe_total (a b : CallRecord) :
    ((decide (b.created_at ≤ a.created_at)) || (decide (a.created_at ≤ b.created_at))) = true := by
  simp only [Bool.or_eq_true, decide_eq_true_eq]
  omega

/-- C4 (amended): the recent view is the 20 most-recently-created records —
all of them when fewer than 20 exist — newest first, drawn from the record
set, each projected through projectRecent (which omits the country column). -/
theorem c4_recent_twenty_newest_first (db : List CallRecord) (now : Int) :
    (get_analytics db "ALL" now).recent_calls = (recentRecords db).map projectRecent
    ∧ (recentRecords db).length = min 20 db.length
    ∧ (recentRecords db).Pairwise (fun a b => b.created_at ≤ a.created_at)
    ∧ (∀ r ∈ recentRecords db, r ∈ db)
    ∧ (∀ r ∈ db, r ∉ recentRecords db →
        ∀ q ∈ recentRecords db, r.created_at ≤ q.created_at) := by
  have hsorted := @List.sorted_mergeSort CallRecord
    (fun a b : CallRecord => decide (b.created_at ≤ a.created_at))
    recentLe_trans recentLe_total db
  refine ⟨?_, ?_, ?_, ?_, ?_⟩
  · simp [get_analytics, cfilter, analyticsOf]
  · simp [recentRecords]
  · have hsub : (recentRecords db).Pairwise
        (fun a b : CallRecord => (decide (b.created_at ≤ a.created_at)) = true) :=
      List.Pairwise.sublist (List.take_sublist 20 _) hsorted
    exact hsub.imp (fun h => of_decide_eq_true h)
  · intro r hr
    have : r ∈ db.mergeSort (fun a b => decide (b.created_at ≤ a.created_at)) :=
      List.mem_of_mem_take hr
    exact List.mem_mergeSort.mp this
  · intro r hrdb hrout q hq
    have hr : r ∈ db.mergeSort (fun a b => decide (b.created_at ≤ a.created_at)) :=
      List.mem_mergeSort.mpr hrdb
    rw [← List.take_append_drop 20
      (db.mergeSort (fun a b => decide (b.created_at ≤ a.created_at)))] at hr hsorted
    have hdrop : r ∈ (db.mergeSort (fun a b => decide (b.created_at ≤ a.created_at))).drop 20 := by
      rcases List.mem_append.mp hr with h | h
      · exact absurd h hrout
      · exact h
    have := (List.pairwise_append.mp hsorted).2.2 q hq r hdrop
    exact of_decide_eq_true this

def recC4 : CallRecord :=
  { id := 7, phone := "+351911222333", status := "hang up", sentiment := "neutral",
    call_human := false, summary := none, attempt := 2, duration := 45,
    country := "PT", created_at := 1700000500 }

theorem c4_recent_twenty_newest_first_witness :
    recC4 ∈ recentRecords [recC4] ∧ recC4 ∈ ([recC4] : List CallRecord)
    ∧ (get_analytics [recC4] "ALL" 0).recent_calls
        = (recentRecords [recC4]).map projectRecent := by
  have h := c4_recent_twenty_newest_first [recC4] 0
  have hmem : recC4 ∈ recentRecords [recC4] := by
    simp [recentRecords]
  exact ⟨hmem, h.2.2.2.1 recC4 hmem, h.1⟩

/-- C6: for the two recognized codes the country filter restricts the entire
response to records with exactly that country (equivalently: analyzing the
pre-filtered record set with no filter), and every other filter string is
treated as no filter; the handler is a total function of its inputs, so no
filter string makes it error. -/
theorem c6_country_filter (db : List CallRecord) (now : Int) (c : String) :
    ((c = "PT" ∨ c = "ES") →
        get_analytics db c now
          = get_analytics (db.filter (fun r => r.country = c)) "ALL" now)
    ∧ (c ≠ "PT" → c ≠ "ES" → get_analytics db c now = get_analytics db "ALL" now) := by
  constructor
  · rintro (rfl | rfl) <;> simp [get_analytics, cfilter]
  · intro h1 h2
    simp [get_analytics, cfilter, h1, h2]

def dbC6 : List CallRecord :=
  [{ id := 1, phone := "+351911222333", status := "success", sentiment := "satisfied",
     call_human := false, summary := none, attempt := 1, duration := 60,
     country := "PT", created_at := 1700000000 },
   { id := 2, phone := "+34618953592", status := "hang up", sentiment := "neutral",
     call_human := false, summary := none, attempt := 1, duration := 30,
     country := "ES", created_at := 1700000100 }]

theorem c6_country_filter_witness :
    get_analytics dbC6 "PT" 1700000200
      = get_analytics (dbC6.filter (fun r => r.country = "PT")) "ALL" 1700000200
    ∧ get_analytics dbC6 "XX" 1700000200 = get_analytics dbC6 "ALL" 1700000200 :=
  ⟨(c6_country_filter dbC6 1700000200 "PT").1 (Or.inl rfl),
   (c6_country_filter dbC6 1700000200 "XX").2 (by decide) (by decide)⟩

/-- C7: on a non-empty record set with no country filter, handoff_rate is the
share of records whose call_human flag is set, in percent rounded to one
decimal, and total_hours_saved is the sum over all records of duration plus a
120-second fixed overhead, converted to hours and rounded to one decimal. -/
theorem c7_handoff_and_hours (db : List CallRecord) (now : Int) (h : db ≠ []) :
    (get_analytics db "ALL" now).summary.handoff_rate
      = round1 (((db.filter (fun r => r.call_human)).length : ℚ) / db.length * 100)
    ∧ (get_analytics db "ALL" now).summary.total_hours_saved
      = round1 ((((db.map (fun r => r.duration)).sum : ℚ) + 120 * db.length) / 3600) := by
  have hall : cfilter "ALL" db = db := by simp [cfilter]
  have hlen : 0 < db.length := List.length_pos.mpr h
  constructor
  · show (summaryOf (cfilter "ALL" db)).handoff_rate = _
    rw [hall]
    simp only [summaryOf, if_pos hlen]
  · show (summaryOf (cfilter "ALL" db)).total_hours_saved = _
    rw [hall]
    simp only [summaryOf, sum_map_duration_add]
    congr 1
    push_cast
    simp only [List.map_map, Function.comp_def]

def c7Record (d : Int) (hum : Bool) : CallRecord :=
  { id := d, phone := "+34618953592", status := "success", sentiment := "satisfied",
    call_human := hum, summary := none, attempt := 1, duration := d,
    country := "ES", created_at := d }

/-- Ten records with durations 0, 30, ..., 270 and call_human set at indices
2 and 5, as in the spec's scenario. -/
def dbC7 : List CallRecord :=
  [c7Record 0 false, c7Record 30 false, c7Record 60 true, c7Record 90 false,
   c7Record 120 false, c7Record 150 true, c7Record 180 false, c7Record 210 false,
   c7Record 240 false, c7Record 270 false]

theorem c7_handoff_and_hours_witness :
    dbC7 ≠ [] ∧ (get_analytics dbC7 "ALL" 0).summary.handoff_rate = 20
    ∧ (get_analytics dbC7 "ALL" 0).summary.total_hours_saved = 7 / 10 := by
  have h := c7_handoff_and_hours dbC7 0 (by simp [dbC7])
  refine ⟨by simp [dbC7], ?_, ?_⟩
  · rw [h.1]
    norm_num [dbC7, c7Record, round1, round_eq]
  · rw [h.2]
    norm_num [dbC7, c7Record, round1, round_eq]

/-- C8: on the empty record set every summary figure is zero, every
distribution, the recent list and both time series are empty; every division
in the handler is guarded by its zero checks. -/
theorem c8_empty_analytics (c : String) (now : Int) :
    (get_analytics [] c now).summary.total_calls = 0
    ∧ (get_analytics [] c now).summary.human_needed = 0
    ∧ (get_analytics [] c now).summary.handoff_rate = 0
    ∧ (get_analytics [] c now).summary.avg_attempts = 0
    ∧ (get_analytics [] c now).summary.avg_duration = 0
    ∧ (get_analytics [] c now).summary.total_hours_saved = 0
    ∧ (get_analytics [] c now).status_distribution = []
    ∧ (get_analytics [] c now).sentiment_distribution = []
    ∧ (get_analytics [] c now).attempts_distribution = []
    ∧ (get_analytics [] c now).recent_calls = []
    ∧ (get_analytics [] c now).calls_over_time = []
    ∧ (get_analytics [] c now).duration_over_time = [] := by
  have hempty : cfilter c [] = [] := by
    unfold cfilter
    split <;> rfl
  simp [get_analytics, hempty, analyticsOf, summaryOf, statusDist, sentimentDist,
        attemptsDist, callsOverTime, durationOverTime, windowDays, windowRows,
        recentRecords, round1]

end UberDash
